import Mathlib

/-!
Verification of the outage-detection state machine of
`discord_vrc_bot.py` (a Discord bot that monitors VRChat status).

The embedding below translates, from the source:
  * `MonitorState` (the four-state enum),
  * `StatusContext` (the mutable monitoring context, all of its fields),
  * `StatusContext.get_severity_score` (the severity classifier),
  * `StatusContext.reset_counters`,
  * `_is_analysis_inconclusive` (the uncertainty guard),
  * the per-tick body of `monitor_task` (the state-machine step),
together with the cooldown and confirmation constants.

Python string operations (`in`, `.lower()`, `.strip()`) are modelled over
character lists with executable definitions so that theorems can be checked
by evaluation.
-/

/-- The four monitor states, from the source `MonitorState` enum. -/
inductive MonitorState where
  | NORMAL
  | SUSPECTED
  | OUTAGE
  | MONITORING
deriving DecidableEq, Repr

/-- True when the pattern occurs at the head of the character list
(the head step of the Python substring test). -/
def matchesAt : List Char → List Char → Bool
  | [], _ => true
  | _ :: _, [] => false
  | p :: ps, c :: cs => p = c && matchesAt ps cs

/-- True when the pattern occurs somewhere in the character list:
Python's `pat in s` for strings. -/
def hasSub (pat : List Char) : List Char → Bool
  | [] => matchesAt pat []
  | c :: cs => matchesAt pat (c :: cs) || hasSub pat cs

/-- `pat in s` on strings (Python substring containment). -/
def strContains (s pat : String) : Bool :=
  hasSub pat.toList s.toList

/-- Python `str.lower()`, restricted to its ASCII action (the keyword
tables only contain ASCII letters and Japanese, which `lower` leaves
unchanged). -/
def lowerChars (l : List Char) : List Char :=
  l.map Char.toLower

/-- Python whitespace for `str.strip()`. -/
def isPyWhitespace (c : Char) : Bool :=
  c = ' ' || c = '\t' || c = '\n' || c = '\r' || c = '\x0b' || c = '\x0c'

/-- Python `str.strip()` over a character list. -/
def stripChars (l : List Char) : List Char :=
  ((l.dropWhile isPyWhitespace).reverse.dropWhile isPyWhitespace).reverse

/-- The observation produced by the judgment subsystem for one tick:
the fields of `OutageAnalysis` consumed by `monitor_task`. -/
structure OutageAnalysis where
  is_outage : Bool
  is_official : Bool
  severity : String
  should_notify : Bool
  notification_message : String
deriving DecidableEq, Repr

/-- The monitoring context, from the source `StatusContext.__init__`:
every mutable field of the state record.  Streak counters are natural
numbers (the source only increments them or resets them to zero);
timestamps are integers standing for the monotonic clock. -/
structure StatusContext where
  state : MonitorState
  consecutive_outage_count : Nat
  consecutive_recovery_count : Nat
  notify_streak : Nat
  degraded_streak : Nat
  normal_streak : Nat
  last_alert_timestamp : Int
  last_recovery_timestamp : Int
  last_severity : String
  last_severity_score : Nat
  notification_sent : Bool
deriving DecidableEq, Repr

/-- The freshly constructed context (`StatusContext.__init__`). -/
def initial_context : StatusContext :=
  { state := .NORMAL
    consecutive_outage_count := 0
    consecutive_recovery_count := 0
    notify_streak := 0
    degraded_streak := 0
    normal_streak := 0
    last_alert_timestamp := 0
    last_recovery_timestamp := 0
    last_severity := "なし"
    last_severity_score := 0
    notification_sent := false }

/-- `StatusContext.get_severity_score`: ordered keyword rules, checked
most-severe first, on the lowercased label; unrecognized labels default
to the mid value 2. -/
def get_severity_score (severity_str : String) : Nat :=
  let s : String := ⟨lowerChars severity_str.toList⟩
  if strContains s "公式" || strContains s "official" || strContains s "major" then 4
  else if strContains s "接続不可" || strContains s "入れない" || strContains s "cannot connect" then 3
  else if strContains s "不安定" || strContains s "重い" || strContains s "degraded" || strContains s "unstable" then 2
  else if strContains s "軽微" || strContains s "minor" then 1
  else if strContains s "なし" || strContains s "normal" then 0
  else 2

/-- `StatusContext.reset_counters`: zero all five streak counters. -/
def reset_counters (ctx : StatusContext) : StatusContext :=
  { ctx with
    consecutive_outage_count := 0
    consecutive_recovery_count := 0
    notify_streak := 0
    degraded_streak := 0
    normal_streak := 0 }

def ALERT_COOLDOWN_SEC : Int := 1800
def RECOVERY_COOLDOWN_SEC : Int := 1800
def OUTAGE_NOTIFY_CONFIRM_COUNT : Nat := 2
def RECOVERY_CONFIRM_COUNT : Nat := 3

/-- `_is_analysis_inconclusive`: the analysis must be skipped when the
stripped, lowercased severity label is exactly the marker string. -/
def is_analysis_inconclusive (analysis : OutageAnalysis) : Bool :=
  lowerChars (stripChars analysis.severity.toList) = "unknown".toList

def alert_title_default : String := "**⚠️ VRChat 障害検知レポート**"
def alert_title_reescalation : String := "**⚠️ 障害状況の再悪化**"
def alert_title_escalation : String := "**⚠️ 障害状況アップデート（深刻化）**"

/-- The per-tick notification decision: the `send_alert` / `send_recovery`
flags and the alert title and body assembled by the tick body. -/
structure Decision where
  send_alert : Bool
  send_recovery : Bool
  alert_title : String
  alert_body : String
deriving DecidableEq, Repr

/-- The decision of a tick that sends nothing. -/
def no_send_decision (analysis : OutageAnalysis) : Decision :=
  { send_alert := false
    send_recovery := false
    alert_title := alert_title_default
    alert_body := analysis.notification_message }

/-- One tick of the monitoring loop: the state-machine body of
`monitor_task`, translated branch for branch (the uncertainty guard,
the three auxiliary streak updates, the cooldown checks, the early
confirmation rule, and the four-state transition logic). -/
def monitor_task_step (ctx0 : StatusContext) (analysis : OutageAnalysis)
    (now_ts : Int) : StatusContext × Decision :=
  if is_analysis_inconclusive analysis = true then
    (ctx0, no_send_decision analysis)
  else
    let raw_outage := analysis.is_outage
    let raw_notify := analysis.should_notify
    let ctx1 : StatusContext :=
      { ctx0 with
        notify_streak := if raw_notify = true then ctx0.notify_streak + 1 else 0
        normal_streak := if raw_outage = false then ctx0.normal_streak + 1 else 0
        degraded_streak :=
          if raw_outage = true ∧ raw_notify = false then ctx0.degraded_streak + 1 else 0 }
    let new_severity_score := get_severity_score analysis.severity
    let can_send_alert : Bool :=
      now_ts - ctx0.last_alert_timestamp ≥ ALERT_COOLDOWN_SEC
    let can_send_recovery : Bool :=
      now_ts - ctx0.last_recovery_timestamp ≥ RECOVERY_COOLDOWN_SEC
    let is_critical : Bool := new_severity_score ≥ 3
    let notify_confirm : Nat :=
      if is_critical = true ∨ analysis.is_official = true then 1
      else OUTAGE_NOTIFY_CONFIRM_COUNT
    if ctx1.state = .NORMAL ∨ ctx1.state = .SUSPECTED ∨ ctx1.state = .MONITORING then
      if analysis.is_outage = true then
        let ctx2 : StatusContext :=
          { ctx1 with
            consecutive_outage_count := ctx1.consecutive_outage_count + 1
            consecutive_recovery_count := 0 }
        if analysis.is_official = true ∨ ctx2.consecutive_outage_count ≥ notify_confirm then
          if ctx2.state ≠ .OUTAGE then
            let ctx3 : StatusContext := { ctx2 with state := .OUTAGE }
            if can_send_alert = true then
              ({ ctx3 with
                  last_alert_timestamp := now_ts
                  notification_sent := true
                  last_severity := analysis.severity
                  last_severity_score := new_severity_score },
               { send_alert := true
                 send_recovery := false
                 alert_title := alert_title_default
                 alert_body := analysis.notification_message })
            else (ctx3, no_send_decision analysis)
          else
            let ctx3 : StatusContext := { ctx2 with state := .OUTAGE }
            if can_send_alert = true then
              ({ ctx3 with last_alert_timestamp := now_ts },
               { send_alert := true
                 send_recovery := false
                 alert_title := alert_title_reescalation
                 alert_body := analysis.notification_message })
            else (ctx3, no_send_decision analysis)
        else
          ({ ctx2 with state := .SUSPECTED }, no_send_decision analysis)
      else
        if ctx1.state = .MONITORING then
          let ctx2 : StatusContext :=
            { ctx1 with
              consecutive_recovery_count := ctx1.consecutive_recovery_count + 1 }
          if ctx2.consecutive_recovery_count ≥ RECOVERY_CONFIRM_COUNT then
            let ctx3 : StatusContext :=
              { reset_counters { ctx2 with state := .NORMAL } with
                last_severity := "なし"
                last_severity_score := 0 }
            if ctx2.notification_sent = true ∧ can_send_recovery = true then
              ({ ctx3 with
                  last_recovery_timestamp := now_ts
                  notification_sent := false },
               { send_alert := false
                 send_recovery := true
                 alert_title := alert_title_default
                 alert_body := analysis.notification_message })
            else ({ ctx3 with notification_sent := false }, no_send_decision analysis)
          else (ctx2, no_send_decision analysis)
        else if ctx1.state = .SUSPECTED then
          ({ ctx1 with state := .NORMAL, consecutive_outage_count := 0 },
           no_send_decision analysis)
        else
          ({ ctx1 with consecutive_outage_count := 0 }, no_send_decision analysis)
    else
      if analysis.is_outage = true then
        let ctx2 : StatusContext := { ctx1 with consecutive_recovery_count := 0 }
        if new_severity_score > ctx2.last_severity_score ∧ raw_notify = true then
          if can_send_alert = true then
            ({ ctx2 with
                last_alert_timestamp := now_ts
                last_severity := analysis.severity
                last_severity_score := new_severity_score },
             { send_alert := true
               send_recovery := false
               alert_title := alert_title_escalation
               alert_body := analysis.notification_message })
          else (ctx2, no_send_decision analysis)
        else
          ({ ctx2 with last_severity_score := new_severity_score },
           no_send_decision analysis)
      else
        ({ ctx1 with state := .MONITORING, consecutive_recovery_count := 1 },
         no_send_decision analysis)

/-- The final context after feeding a list of (observation, time) ticks. -/
def run_ctx (ctx : StatusContext) : List (OutageAnalysis × Int) → StatusContext
  | [] => ctx
  | (a, t) :: rest => run_ctx (monitor_task_step ctx a t).1 rest

/-- The trace of decisions, each paired with the time of its tick. -/
def run_timed (ctx : StatusContext) : List (OutageAnalysis × Int) → List (Decision × Int)
  | [] => []
  | (a, t) :: rest =>
      ((monitor_task_step ctx a t).2, t) :: run_timed (monitor_task_step ctx a t).1 rest

/-- The all-clear observation of the idempotence law. -/
def obs_none : OutageAnalysis :=
  { is_outage := false
    is_official := false
    severity := "none"
    should_notify := false
    notification_message := "" }

/-- An observation carrying the indeterminate severity marker. -/
def obs_unknown : OutageAnalysis :=
  { is_outage := false
    is_official := false
    severity := "unknown"
    should_notify := false
    notification_message := "" }

/-- An official major-severity outage observation. -/
def obs_official_major : OutageAnalysis :=
  { is_outage := true
    is_official := true
    severity := "major"
    should_notify := true
    notification_message := "m" }

/-- A clean (non-outage) observation with the Japanese zero-severity label. -/
def obs_clean : OutageAnalysis :=
  { is_outage := false
    is_official := false
    severity := "なし"
    should_notify := false
    notification_message := "" }

/-- An unofficial degraded-severity outage observation that recommends notifying. -/
def obs_degraded_notify : OutageAnalysis :=
  { is_outage := true
    is_official := false
    severity := "degraded"
    should_notify := true
    notification_message := "d" }

/-- An unofficial minor-severity outage observation. -/
def obs_minor : OutageAnalysis :=
  { is_outage := true
    is_official := false
    severity := "minor"
    should_notify := false
    notification_message := "" }

/-- C1: from Normal, Suspected or Monitoring, an outage observation (severity
not the indeterminate marker) confirms the incident (state becomes Outage)
immediately when the observation is official or classifies at severity ≥ 3,
and otherwise exactly when the incremented outage streak reaches 2; until
confirmed the state is Suspected and the decision sends nothing. -/
theorem c1_confirmation_rule (ctx : StatusContext) (a : OutageAnalysis) (t : Int)
    (hinc : is_analysis_inconclusive a = false)
    (ho : a.is_outage = true)
    (hst : ctx.state = .NORMAL ∨ ctx.state = .SUSPECTED ∨ ctx.state = .MONITORING) :
    ((a.is_official = true ∨ get_severity_score a.severity ≥ 3) →
      (monitor_task_step ctx a t).1.state = .OUTAGE) ∧
    ((a.is_official = false ∧ get_severity_score a.severity < 3) →
      ((monitor_task_step ctx a t).1.state = .OUTAGE ↔
        ctx.consecutive_outage_count + 1 ≥ 2)) ∧
    ((a.is_official = false ∧ get_severity_score a.severity < 3 ∧
        ctx.consecutive_outage_count + 1 < 2) →
      ((monitor_task_step ctx a t).1.state = .SUSPECTED ∧
       (monitor_task_step ctx a t).2.send_alert = false ∧
       (monitor_task_step ctx a t).2.send_recovery = false)) := by
  have hstne : ctx.state ≠ .OUTAGE := by
    rcases hst with h | h | h <;> simp [h]
  simp only [monitor_task_step, hinc, ho, OUTAGE_NOTIFY_CONFIRM_COUNT]
  split_ifs <;>
    simp_all [no_send_decision, decide_eq_true_eq] <;>
      (intro hof hsc; simp_all; omega)

/-- Witness for C1 at the initial context and an official major observation. -/
theorem c1_confirmation_rule_witness :
    is_analysis_inconclusive obs_official_major = false ∧
    obs_official_major.is_outage = true ∧
    (initial_context.state = .NORMAL ∨ initial_context.state = .SUSPECTED ∨
      initial_context.state = .MONITORING) ∧
    (((obs_official_major.is_official = true ∨
        get_severity_score obs_official_major.severity ≥ 3) →
      (monitor_task_step initial_context obs_official_major 2000).1.state = .OUTAGE) ∧
    ((obs_official_major.is_official = false ∧
        get_severity_score obs_official_major.severity < 3) →
      ((monitor_task_step initial_context obs_official_major 2000).1.state = .OUTAGE ↔
        initial_context.consecutive_outage_count + 1 ≥ 2)) ∧
    ((obs_official_major.is_official = false ∧
        get_severity_score obs_official_major.severity < 3 ∧
        initial_context.consecutive_outage_count + 1 < 2) →
      ((monitor_task_step initial_context obs_official_major 2000).1.state = .SUSPECTED ∧
       (monitor_task_step initial_context obs_official_major 2000).2.send_alert = false ∧
       (monitor_task_step initial_context obs_official_major 2000).2.send_recovery = false))) :=
  ⟨by decide, rfl, Or.inl rfl,
   c1_confirmation_rule initial_context obs_official_major 2000 (by decide) rfl (Or.inl rfl)⟩

/-- C2: an observation whose severity is the indeterminate marker makes the
tick a complete no-op: the context is returned unchanged field for field and
the decision sends nothing. -/
theorem c2_inconclusive_noop (ctx : StatusContext) (a : OutageAnalysis) (t : Int)
    (h : is_analysis_inconclusive a = true) :
    (monitor_task_step ctx a t).1 = ctx ∧
    (monitor_task_step ctx a t).2.send_alert = false ∧
    (monitor_task_step ctx a t).2.send_recovery = false := by
  simp [monitor_task_step, h, no_send_decision]

/-- Witness for C2 at the initial context and severity "unknown". -/
theorem c2_inconclusive_noop_witness :
    is_analysis_inconclusive obs_unknown = true ∧
    ((monitor_task_step initial_context obs_unknown 5).1 = initial_context ∧
     (monitor_task_step initial_context obs_unknown 5).2.send_alert = false ∧
     (monitor_task_step initial_context obs_unknown 5).2.send_recovery = false) :=
  ⟨by decide, c2_inconclusive_noop initial_context obs_unknown 5 (by decide)⟩

/-- C5 counterexample: the label "unreachable" matches no keyword group
(the score-3 group tests 接続不可 / 入れない / "cannot connect" only), so it
gets the unrecognized-label default 2, not 3 as the claim states. -/
theorem c5_counterexample :
    get_severity_score "unreachable" = 2 ∧ ¬ get_severity_score "unreachable" = 3 := by
  decide

/-- C5 (amended): the classifier is a pure total function into 0..4 with
classify "major" = 4, classify "degraded" = 2, classify "minor" = 1 and
classify "normal" = 0; but "unreachable" and "none" match no keyword group
and both get the cautious default 2. -/
theorem c5_severity_classifier :
    (∀ s, get_severity_score s ≤ 4) ∧
    get_severity_score "major" = 4 ∧
    get_severity_score "degraded" = 2 ∧
    get_severity_score "minor" = 1 ∧
    get_severity_score "normal" = 0 ∧
    get_severity_score "unreachable" = 2 ∧
    get_severity_score "none" = 2 := by
  refine ⟨?_, by decide, by decide, by decide, by decide, by decide, by decide⟩
  intro s
  unfold get_severity_score
  dsimp only
  repeat first
  | decide
  | split

/-- C3: from Monitoring a non-outage observation increments the recovery
streak and the transition to Normal happens exactly when it reaches 3, with
outage streak, recovery streak and severity score reset, the notified flag
cleared, and a recovery notification exactly when the flag was set and the
recovery cooldown has elapsed; from Outage a non-outage observation moves
to Monitoring with recovery streak 1 and no notification. -/
theorem c3_recovery_rule (ctx : StatusContext) (a : OutageAnalysis) (t : Int)
    (hinc : is_analysis_inconclusive a = false)
    (ho : a.is_outage = false) :
    ((ctx.state = .MONITORING ∧ ctx.consecutive_recovery_count + 1 < 3) →
      ((monitor_task_step ctx a t).1.state = .MONITORING ∧
       (monitor_task_step ctx a t).1.consecutive_recovery_count =
         ctx.consecutive_recovery_count + 1 ∧
       (monitor_task_step ctx a t).2.send_alert = false ∧
       (monitor_task_step ctx a t).2.send_recovery = false)) ∧
    ((ctx.state = .MONITORING ∧ ctx.consecutive_recovery_count + 1 ≥ 3) →
      ((monitor_task_step ctx a t).1.state = .NORMAL ∧
       (monitor_task_step ctx a t).1.consecutive_outage_count = 0 ∧
       (monitor_task_step ctx a t).1.consecutive_recovery_count = 0 ∧
       (monitor_task_step ctx a t).1.last_severity_score = 0 ∧
       (monitor_task_step ctx a t).1.notification_sent = false ∧
       ((monitor_task_step ctx a t).2.send_recovery = true ↔
         (ctx.notification_sent = true ∧
          t - ctx.last_recovery_timestamp ≥ RECOVERY_COOLDOWN_SEC)) ∧
       (monitor_task_step ctx a t).2.send_alert = false)) ∧
    (ctx.state = .OUTAGE →
      ((monitor_task_step ctx a t).1.state = .MONITORING ∧
       (monitor_task_step ctx a t).1.consecutive_recovery_count = 1 ∧
       (monitor_task_step ctx a t).2.send_alert = false ∧
       (monitor_task_step ctx a t).2.send_recovery = false)) := by
  refine ⟨?_, ?_, ?_⟩
  · rintro ⟨hM, hcnt⟩
    simp only [monitor_task_step, hinc, ho, RECOVERY_CONFIRM_COUNT]
    split_ifs <;> simp_all [no_send_decision, reset_counters, decide_eq_true_eq] <;> omega
  · rintro ⟨hM, hcnt⟩
    simp only [monitor_task_step, hinc, ho, RECOVERY_CONFIRM_COUNT]
    split_ifs <;> simp_all [no_send_decision, reset_counters, decide_eq_true_eq]
  · intro hO
    have hstne : ¬ (ctx.state = .NORMAL ∨ ctx.state = .SUSPECTED ∨ ctx.state = .MONITORING) := by
      simp [hO]
    simp only [monitor_task_step, hinc, ho]
    split_ifs <;> simp_all [no_send_decision, decide_eq_true_eq]

/-- Witness for C3: a Monitoring context two clean ticks into recovery,
fed a third clean tick at an elapsed recovery cooldown. -/
theorem c3_recovery_rule_witness :
    is_analysis_inconclusive obs_clean = false ∧
    obs_clean.is_outage = false ∧
    ((({ initial_context with
          state := .MONITORING
          consecutive_outage_count := 1
          consecutive_recovery_count := 2
          notification_sent := true }.state = MonitorState.MONITORING ∧
        (2 : Nat) + 1 < 3) →
      ((monitor_task_step { initial_context with
          state := .MONITORING
          consecutive_outage_count := 1
          consecutive_recovery_count := 2
          notification_sent := true } obs_clean 2000).1.state = .MONITORING ∧
       (monitor_task_step { initial_context with
          state := .MONITORING
          consecutive_outage_count := 1
          consecutive_recovery_count := 2
          notification_sent := true } obs_clean 2000).1.consecutive_recovery_count = 2 + 1 ∧
       (monitor_task_step { initial_context with
          state := .MONITORING
          consecutive_outage_count := 1
          consecutive_recovery_count := 2
          notification_sent := true } obs_clean 2000).2.send_alert = false ∧
       (monitor_task_step { initial_context with
          state := .MONITORING
          consecutive_outage_count := 1
          consecutive_recovery_count := 2
          notification_sent := true } obs_clean 2000).2.send_recovery = false)) ∧
    (({ initial_context with
          state := .MONITORING
          consecutive_outage_count := 1
          consecutive_recovery_count := 2
          notification_sent := true }.state = MonitorState.MONITORING ∧
        (2 : Nat) + 1 ≥ 3) →
      ((monitor_task_step { initial_context with
          state := .MONITORING
          consecutive_outage_count := 1
          consecutive_recovery_count := 2
          notification_sent := true } obs_clean 2000).1.state = .NORMAL ∧
       (monitor_task_step { initial_context with
          state := .MONITORING
          consecutive_outage_count := 1
          consecutive_recovery_count := 2
          notification_sent := true } obs_clean 2000).1.consecutive_outage_count = 0 ∧
       (monitor_task_step { initial_context with
          state := .MONITORING
          consecutive_outage_count := 1
          consecutive_recovery_count := 2
          notification_sent := true } obs_clean 2000).1.consecutive_recovery_count = 0 ∧
       (monitor_task_step { initial_context with
          state := .MONITORING
          consecutive_outage_count := 1
          consecutive_recovery_count := 2
          notification_sent := true } obs_clean 2000).1.last_severity_score = 0 ∧
       (monitor_task_step { initial_context with
          state := .MONITORING
          consecutive_outage_count := 1
          consecutive_recovery_count := 2
          notification_sent := true } obs_clean 2000).1.notification_sent = false ∧
       ((monitor_task_step { initial_context with
          state := .MONITORING
          consecutive_outage_count := 1
          consecutive_recovery_count := 2
          notification_sent := true } obs_clean 2000).2.send_recovery = true ↔
         ({ initial_context with
          state := .MONITORING
          consecutive_outage_count := 1
          consecutive_recovery_count := 2
          notification_sent := true }.notification_sent = true ∧
          (2000 : Int) - { initial_context with
          state := .MONITORING
          consecutive_outage_count := 1
          consecutive_recovery_count := 2
          notification_sent := true }.last_recovery_timestamp ≥ RECOVERY_COOLDOWN_SEC)) ∧
       (monitor_task_step { initial_context with
          state := .MONITORING
          consecutive_outage_count := 1
          consecutive_recovery_count := 2
          notification_sent := true } obs_clean 2000).2.send_alert = false)) ∧
    ({ initial_context with
          state := .MONITORING
          consecutive_outage_count := 1
          consecutive_recovery_count := 2
          notification_sent := true }.state = MonitorState.OUTAGE →
      ((monitor_task_step { initial_context with
          state := .MONITORING
          consecutive_outage_count := 1
          consecutive_recovery_count := 2
          notification_sent := true } obs_clean 2000).1.state = .MONITORING ∧
       (monitor_task_step { initial_context with
          state := .MONITORING
          consecutive_outage_count := 1
          consecutive_recovery_count := 2
          notification_sent := true } obs_clean 2000).1.consecutive_recovery_count = 1 ∧
       (monitor_task_step { initial_context with
          state := .MONITORING
          consecutive_outage_count := 1
          consecutive_recovery_count := 2
          notification_sent := true } obs_clean 2000).2.send_alert = false ∧
       (monitor_task_step { initial_context with
          state := .MONITORING
          consecutive_outage_count := 1
          consecutive_recovery_count := 2
          notification_sent := true } obs_clean 2000).2.send_recovery = false))) :=
  ⟨by decide, rfl,
   c3_recovery_rule { initial_context with
      state := .MONITORING
      consecutive_outage_count := 1
      consecutive_recovery_count := 2
      notification_sent := true } obs_clean 2000 (by decide) rfl⟩

/-- An Outage context whose current incident has severity score 3 and has
already notified. -/
def ctx_outage_score3 : StatusContext :=
  { initial_context with
    state := .OUTAGE
    consecutive_outage_count := 1
    last_severity_score := 3
    notification_sent := true }

/-- C6 counterexample: in Outage with last severity score 3, an ongoing
outage observation of lower severity ("minor", score 1) overwrites the
stored score with 1 — the score is not left unchanged as the claim states. -/
theorem c6_counterexample :
    (monitor_task_step ctx_outage_score3 obs_minor 0).1.last_severity_score = 1 ∧
    ¬ (monitor_task_step ctx_outage_score3 obs_minor 0).1.last_severity_score =
        ctx_outage_score3.last_severity_score := by
  decide

/-- C6 (amended): in Outage with an ongoing outage observation, the state
stays Outage and the recovery streak resets; when the new score is higher
and the observation recommends notifying, an escalation alert fires and the
score is updated provided the alert cooldown has elapsed (blocked by the
cooldown, the score is unchanged and nothing fires); in every other case
the stored score is overwritten with the new score — so it can decrease. -/
theorem c6_severity_update (ctx : StatusContext) (a : OutageAnalysis) (t : Int)
    (hinc : is_analysis_inconclusive a = false)
    (ho : a.is_outage = true)
    (hst : ctx.state = .OUTAGE) :
    (monitor_task_step ctx a t).1.state = .OUTAGE ∧
    (monitor_task_step ctx a t).1.consecutive_recovery_count = 0 ∧
    ((get_severity_score a.severity > ctx.last_severity_score ∧ a.should_notify = true ∧
        t - ctx.last_alert_timestamp ≥ ALERT_COOLDOWN_SEC) →
      ((monitor_task_step ctx a t).1.last_severity_score = get_severity_score a.severity ∧
       (monitor_task_step ctx a t).2.send_alert = true ∧
       (monitor_task_step ctx a t).2.alert_title = alert_title_escalation)) ∧
    ((get_severity_score a.severity > ctx.last_severity_score ∧ a.should_notify = true ∧
        ¬ t - ctx.last_alert_timestamp ≥ ALERT_COOLDOWN_SEC) →
      ((monitor_task_step ctx a t).1.last_severity_score = ctx.last_severity_score ∧
       (monitor_task_step ctx a t).2.send_alert = false)) ∧
    (¬ (get_severity_score a.severity > ctx.last_severity_score ∧ a.should_notify = true) →
      ((monitor_task_step ctx a t).1.last_severity_score = get_severity_score a.severity ∧
       (monitor_task_step ctx a t).2.send_alert = false)) := by
  have hstne : ¬ (ctx.state = .NORMAL ∨ ctx.state = .SUSPECTED ∨ ctx.state = .MONITORING) := by
    simp [hst]
  simp only [monitor_task_step, hinc, ho]
  split_ifs <;> simp_all [no_send_decision, decide_eq_true_eq]

/-- Witness for C6: the score-3 Outage context fed an official major
observation (score 4, notify) with the alert cooldown elapsed. -/
theorem c6_severity_update_witness :
    is_analysis_inconclusive obs_official_major = false ∧
    obs_official_major.is_outage = true ∧
    ctx_outage_score3.state = MonitorState.OUTAGE ∧
    ((monitor_task_step ctx_outage_score3 obs_official_major 2000).1.state = .OUTAGE ∧
     (monitor_task_step ctx_outage_score3 obs_official_major 2000).1.consecutive_recovery_count = 0 ∧
     ((get_severity_score obs_official_major.severity > ctx_outage_score3.last_severity_score ∧
         obs_official_major.should_notify = true ∧
         (2000 : Int) - ctx_outage_score3.last_alert_timestamp ≥ ALERT_COOLDOWN_SEC) →
       ((monitor_task_step ctx_outage_score3 obs_official_major 2000).1.last_severity_score =
          get_severity_score obs_official_major.severity ∧
        (monitor_task_step ctx_outage_score3 obs_official_major 2000).2.send_alert = true ∧
        (monitor_task_step ctx_outage_score3 obs_official_major 2000).2.alert_title =
          alert_title_escalation)) ∧
     ((get_severity_score obs_official_major.severity > ctx_outage_score3.last_severity_score ∧
         obs_official_major.should_notify = true ∧
         ¬ (2000 : Int) - ctx_outage_score3.last_alert_timestamp ≥ ALERT_COOLDOWN_SEC) →
       ((monitor_task_step ctx_outage_score3 obs_official_major 2000).1.last_severity_score =
          ctx_outage_score3.last_severity_score ∧
        (monitor_task_step ctx_outage_score3 obs_official_major 2000).2.send_alert = false)) ∧
     (¬ (get_severity_score obs_official_major.severity > ctx_outage_score3.last_severity_score ∧
          obs_official_major.should_notify = true) →
       ((monitor_task_step ctx_outage_score3 obs_official_major 2000).1.last_severity_score =
          get_severity_score obs_official_major.severity ∧
        (monitor_task_step ctx_outage_score3 obs_official_major 2000).2.send_alert = false))) :=
  ⟨by decide, rfl, rfl,
   c6_severity_update ctx_outage_score3 obs_official_major 2000 (by decide) rfl rfl⟩

/-- C8 (code bug): a Monitoring context reached by a confirmed-and-notified
incident followed by one clean tick, when fed a new outage observation with
the alert cooldown elapsed, transitions directly to Outage and alerts — but
with the first-detection title, not the re-escalation title: the guard
`state != OUTAGE` on the new-incident branch is always true there, so the
source's re-escalation branch is unreachable. -/
theorem c8_monitoring_realert_title :
    (run_ctx initial_context [(obs_official_major, 2000), (obs_clean, 2100)]).state =
      .MONITORING ∧
    (monitor_task_step
      (run_ctx initial_context [(obs_official_major, 2000), (obs_clean, 2100)])
      obs_degraded_notify 4000).1.state = .OUTAGE ∧
    (monitor_task_step
      (run_ctx initial_context [(obs_official_major, 2000), (obs_clean, 2100)])
      obs_degraded_notify 4000).2.send_alert = true ∧
    (monitor_task_step
      (run_ctx initial_context [(obs_official_major, 2000), (obs_clean, 2100)])
      obs_degraded_notify 4000).2.alert_title = alert_title_default ∧
    ¬ alert_title_default = alert_title_reescalation := by
  decide

/-- One clean "none" tick from Normal: only the auxiliary streak counters
move — in particular `normal_streak` is incremented. -/
theorem step_none_normal (ctx : StatusContext) (t : Int) (hst : ctx.state = .NORMAL) :
    monitor_task_step ctx obs_none t =
    ({ ctx with
        normal_streak := ctx.normal_streak + 1
        notify_streak := 0
        degraded_streak := 0
        consecutive_outage_count := 0 },
     no_send_decision obs_none) := by
  simp [monitor_task_step, hst, obs_none, is_analysis_inconclusive, stripChars, lowerChars,
    isPyWhitespace]

/-- C9 counterexample: one clean "none" tick from the fresh Normal context
does change the context — `normal_streak` becomes 1. -/
theorem c9_counterexample :
    ¬ (monitor_task_step initial_context obs_none 0).1 = initial_context := by
  decide

/-- Helper for C9: with the three zeroed auxiliary counters, n clean "none"
ticks from Normal only grow `normal_streak` by n and never notify. -/
theorem run_none_normal_aux (n : Nat) : ∀ ctx : StatusContext, ctx.state = .NORMAL →
    ctx.notify_streak = 0 → ctx.degraded_streak = 0 → ctx.consecutive_outage_count = 0 →
    run_ctx ctx (List.replicate n (obs_none, 0)) =
      { ctx with normal_streak := ctx.normal_streak + n } ∧
    run_timed ctx (List.replicate n (obs_none, 0)) =
      List.replicate n (no_send_decision obs_none, 0) := by
  induction n with
  | zero =>
    intro ctx h1 h2 h3 h4
    simp [run_ctx, run_timed]
  | succ n ih =>
    intro ctx h1 h2 h3 h4
    rw [List.replicate_succ]
    simp only [run_ctx, run_timed]
    rw [step_none_normal ctx 0 h1]
    obtain ⟨e1, e2⟩ := ih
      { ctx with
        normal_streak := ctx.normal_streak + 1
        notify_streak := 0
        degraded_streak := 0
        consecutive_outage_count := 0 } h1 rfl rfl rfl
    refine ⟨?_, ?_⟩
    · rw [e1]
      obtain ⟨st, c1, c2, ns, ds, nos, lat, lrt, ls, lss, nsent⟩ := ctx
      simp_all
      omega
    · rw [e2, List.replicate_succ]

/-- C9 (amended): from any Normal context, n ≥ 1 repetitions of the clean
observation `obs_none` leave every field unchanged except that
`normal_streak` grows by n and the `notify_streak`, `degraded_streak` and
`consecutive_outage_count` counters are zeroed (already zero in any context
actually produced by the monitor while Normal), and no tick notifies. -/
theorem c9_normal_ticks (ctx : StatusContext) (hst : ctx.state = .NORMAL)
    (n : Nat) (hn : 1 ≤ n) :
    run_ctx ctx (List.replicate n (obs_none, 0)) =
      { ctx with
        normal_streak := ctx.normal_streak + n
        notify_streak := 0
        degraded_streak := 0
        consecutive_outage_count := 0 } ∧
    run_timed ctx (List.replicate n (obs_none, 0)) =
      List.replicate n (no_send_decision obs_none, 0) := by
  obtain ⟨m, rfl⟩ : ∃ m, n = m + 1 := ⟨n - 1, by omega⟩
  rw [List.replicate_succ]
  simp only [run_ctx, run_timed]
  rw [step_none_normal ctx 0 hst]
  obtain ⟨e1, e2⟩ := run_none_normal_aux m
    { ctx with
      normal_streak := ctx.normal_streak + 1
      notify_streak := 0
      degraded_streak := 0
      consecutive_outage_count := 0 } hst rfl rfl rfl
  refine ⟨?_, ?_⟩
  · rw [e1]
    obtain ⟨st, c1, c2, ns, ds, nos, lat, lrt, ls, lss, nsent⟩ := ctx
    simp_all
    omega
  · rw [e2, List.replicate_succ]

/-- Witness for C9 at the fresh context and two ticks. -/
theorem c9_normal_ticks_witness :
    initial_context.state = MonitorState.NORMAL ∧ 1 ≤ 2 ∧
    (run_ctx initial_context (List.replicate 2 (obs_none, 0)) =
      { initial_context with
        normal_streak := initial_context.normal_streak + 2
        notify_streak := 0
        degraded_streak := 0
        consecutive_outage_count := 0 } ∧
     run_timed initial_context (List.replicate 2 (obs_none, 0)) =
      List.replicate 2 (no_send_decision obs_none, 0)) :=
  ⟨rfl, by decide, c9_normal_ticks initial_context rfl 2 (by decide)⟩

/-- An outage tick that confirms the incident (official, critical, or the
streak reaching the threshold) while the alert cooldown has not elapsed:
the state still becomes Outage but nothing is sent, the notified flag and
the stored severity score are untouched. -/
theorem step_confirm_blocked (ctx : StatusContext) (a : OutageAnalysis) (t : Int)
    (hinc : is_analysis_inconclusive a = false)
    (ho : a.is_outage = true)
    (hst : ctx.state = .NORMAL ∨ ctx.state = .SUSPECTED ∨ ctx.state = .MONITORING)
    (hconf : a.is_official = true ∨ get_severity_score a.severity ≥ 3 ∨
      ctx.consecutive_outage_count + 1 ≥ 2)
    (hcool : t - ctx.last_alert_timestamp < ALERT_COOLDOWN_SEC) :
    monitor_task_step ctx a t =
    ({ ctx with
        notify_streak := if a.should_notify = true then ctx.notify_streak + 1 else 0
        normal_streak := 0
        degraded_streak := if a.should_notify = false then ctx.degraded_streak + 1 else 0
        consecutive_outage_count := ctx.consecutive_outage_count + 1
        consecutive_recovery_count := 0
        state := .OUTAGE },
     no_send_decision a) := by
  have hstne : ctx.state ≠ .OUTAGE := by
    rcases hst with h | h | h <;> simp [h]
  simp only [monitor_task_step, hinc, ho, OUTAGE_NOTIFY_CONFIRM_COUNT]
  split_ifs <;> simp_all [no_send_decision, decide_eq_true_eq] <;> omega

/-- A clean tick in Outage: silent transition to Monitoring with recovery
streak 1. -/
theorem step_outage_clean (ctx : StatusContext) (b : OutageAnalysis) (t : Int)
    (hinc : is_analysis_inconclusive b = false)
    (hb : b.is_outage = false)
    (hst : ctx.state = .OUTAGE) :
    monitor_task_step ctx b t =
    ({ ctx with
        notify_streak := if b.should_notify = true then ctx.notify_streak + 1 else 0
        normal_streak := ctx.normal_streak + 1
        degraded_streak := 0
        state := .MONITORING
        consecutive_recovery_count := 1 },
     no_send_decision b) := by
  have hstne : ¬ (ctx.state = .NORMAL ∨ ctx.state = .SUSPECTED ∨ ctx.state = .MONITORING) := by
    simp [hst]
  simp only [monitor_task_step, hinc, hb]
  split_ifs <;> simp_all [no_send_decision]

/-- A clean tick in Monitoring short of the recovery threshold: the
recovery streak advances and nothing else of the machine state moves. -/
theorem step_monitoring_clean (ctx : StatusContext) (b : OutageAnalysis) (t : Int)
    (hinc : is_analysis_inconclusive b = false)
    (hb : b.is_outage = false)
    (hst : ctx.state = .MONITORING)
    (hlt : ctx.consecutive_recovery_count + 1 < 3) :
    monitor_task_step ctx b t =
    ({ ctx with
        notify_streak := if b.should_notify = true then ctx.notify_streak + 1 else 0
        normal_streak := ctx.normal_streak + 1
        degraded_streak := 0
        consecutive_recovery_count := ctx.consecutive_recovery_count + 1 },
     no_send_decision b) := by
  simp only [monitor_task_step, hinc, hb, RECOVERY_CONFIRM_COUNT]
  split_ifs <;> simp_all <;> omega

/-- A clean tick in Monitoring reaching the recovery threshold with the
notified flag clear: recovery confirms silently — counters and severity
reset, and no recovery notification fires. -/
theorem step_monitoring_recover (ctx : StatusContext) (b : OutageAnalysis) (t : Int)
    (hinc : is_analysis_inconclusive b = false)
    (hb : b.is_outage = false)
    (hst : ctx.state = .MONITORING)
    (hge : ctx.consecutive_recovery_count + 1 ≥ 3)
    (hsent : ctx.notification_sent = false) :
    monitor_task_step ctx b t =
    ({ ctx with
        state := .NORMAL
        consecutive_outage_count := 0
        consecutive_recovery_count := 0
        notify_streak := 0
        degraded_streak := 0
        normal_streak := 0
        last_severity := "なし"
        last_severity_score := 0
        notification_sent := false },
     no_send_decision b) := by
  simp only [monitor_task_step, hinc, hb, RECOVERY_CONFIRM_COUNT]
  split_ifs <;> simp_all [reset_counters]

/-- C10: an observation that confirms an incident while the alert cooldown
has not elapsed still moves the state to Outage, but sends nothing, leaves
the notified flag false and the stored severity score untouched; when the
incident then recovers through three clean observations, no recovery
notification fires either — the whole incident produces zero
notifications. -/
theorem c10_blocked_incident (ctx : StatusContext) (a b1 b2 b3 : OutageAnalysis)
    (t t1 t2 t3 : Int)
    (hinc : is_analysis_inconclusive a = false)
    (ho : a.is_outage = true)
    (hst : ctx.state = .NORMAL ∨ ctx.state = .SUSPECTED ∨ ctx.state = .MONITORING)
    (hsent : ctx.notification_sent = false)
    (hconf : a.is_official = true ∨ get_severity_score a.severity ≥ 3 ∨
      ctx.consecutive_outage_count + 1 ≥ 2)
    (hcool : t - ctx.last_alert_timestamp < ALERT_COOLDOWN_SEC)
    (hb1 : is_analysis_inconclusive b1 = false) (hb1o : b1.is_outage = false)
    (hb2 : is_analysis_inconclusive b2 = false) (hb2o : b2.is_outage = false)
    (hb3 : is_analysis_inconclusive b3 = false) (hb3o : b3.is_outage = false) :
    (run_ctx ctx [(a, t)]).state = .OUTAGE ∧
    (run_ctx ctx [(a, t)]).notification_sent = false ∧
    (run_ctx ctx [(a, t)]).last_severity_score = ctx.last_severity_score ∧
    (run_ctx ctx [(a, t), (b1, t1), (b2, t2), (b3, t3)]).state = .NORMAL ∧
    run_timed ctx [(a, t), (b1, t1), (b2, t2), (b3, t3)] =
      [(no_send_decision a, t), (no_send_decision b1, t1),
       (no_send_decision b2, t2), (no_send_decision b3, t3)] := by
  have h0 := step_confirm_blocked ctx a t hinc ho hst hconf hcool
  simp only [run_ctx, run_timed]
  rw [h0]
  dsimp only
  rw [hsent] at h0 ⊢
  rw [step_outage_clean _ b1 t1 hb1 hb1o rfl]
  dsimp only
  rw [step_monitoring_clean _ b2 t2 hb2 hb2o rfl (show 1 + 1 < 3 by decide)]
  dsimp only
  rw [step_monitoring_recover _ b3 t3 hb3 hb3o rfl (show 1 + 1 + 1 ≥ 3 by decide) rfl]
  dsimp only
  exact ⟨rfl, rfl, rfl, rfl, rfl⟩

/-- Witness for C10: an official major observation at time 0 (cooldown not
elapsed) followed by three clean ticks. -/
theorem c10_blocked_incident_witness :
    is_analysis_inconclusive obs_official_major = false ∧
    obs_official_major.is_outage = true ∧
    (initial_context.state = .NORMAL ∨ initial_context.state = .SUSPECTED ∨
      initial_context.state = .MONITORING) ∧
    initial_context.notification_sent = false ∧
    (obs_official_major.is_official = true ∨
      get_severity_score obs_official_major.severity ≥ 3 ∨
      initial_context.consecutive_outage_count + 1 ≥ 2) ∧
    (0 : Int) - initial_context.last_alert_timestamp < ALERT_COOLDOWN_SEC ∧
    ((run_ctx initial_context [(obs_official_major, 0)]).state = .OUTAGE ∧
     (run_ctx initial_context [(obs_official_major, 0)]).notification_sent = false ∧
     (run_ctx initial_context [(obs_official_major, 0)]).last_severity_score =
       initial_context.last_severity_score ∧
     (run_ctx initial_context
        [(obs_official_major, 0), (obs_clean, 1), (obs_clean, 2), (obs_clean, 3)]).state =
       .NORMAL ∧
     run_timed initial_context
        [(obs_official_major, 0), (obs_clean, 1), (obs_clean, 2), (obs_clean, 3)] =
       [(no_send_decision obs_official_major, 0), (no_send_decision obs_clean, 1),
        (no_send_decision obs_clean, 2), (no_send_decision obs_clean, 3)]) :=
  ⟨by decide, rfl, Or.inl rfl, rfl, Or.inl rfl, by decide,
   c10_blocked_incident initial_context obs_official_major obs_clean obs_clean obs_clean
     0 1 2 3 (by decide) rfl (Or.inl rfl) rfl (Or.inl rfl) (by decide)
     (by decide) rfl (by decide) rfl (by decide) rfl⟩

/-- The inductive invariant of the monitoring context: in Normal the outage
streak is zero and nothing has notified; in Suspected the incident is not
yet notified and the streak is positive; outside Normal the streak is
positive. -/
def ContextInv (ctx : StatusContext) : Prop :=
  (ctx.state = .NORMAL → ctx.consecutive_outage_count = 0 ∧ ctx.notification_sent = false) ∧
  (ctx.state = .SUSPECTED → 1 ≤ ctx.consecutive_outage_count ∧ ctx.notification_sent = false) ∧
  (¬ ctx.state = .NORMAL → 1 ≤ ctx.consecutive_outage_count)

/-- The contexts reachable from the fresh context by ticks of the monitor. -/
inductive Reachable : StatusContext → Prop where
  | init : Reachable initial_context
  | step (ctx : StatusContext) (a : OutageAnalysis) (t : Int) :
      Reachable ctx → Reachable (monitor_task_step ctx a t).1


/-- The invariant is preserved by a tick taken in Normal. -/
theorem inv_step_normal (ctx : StatusContext) (a : OutageAnalysis) (t : Int)
    (hst : ctx.state = .NORMAL)
    (hc : ctx.consecutive_outage_count = 0) (hs : ctx.notification_sent = false) :
    ContextInv (monitor_task_step ctx a t).1 := by
  by_cases hinc : is_analysis_inconclusive a = true
  · simp [monitor_task_step, hinc, ContextInv, hst, hc, hs]
  · by_cases ho : a.is_outage = true
    · simp only [ContextInv, monitor_task_step, hinc, ho, OUTAGE_NOTIFY_CONFIRM_COUNT,
        if_false, Bool.false_eq_true]
      split_ifs <;> simp_all [decide_eq_true_eq]
    · simp only [ContextInv, monitor_task_step, hinc, ho, OUTAGE_NOTIFY_CONFIRM_COUNT,
        if_false, Bool.false_eq_true]
      split_ifs <;> simp_all [decide_eq_true_eq, reset_counters]

/-- The invariant is preserved by a tick taken in Suspected. -/
theorem inv_step_suspected (ctx : StatusContext) (a : OutageAnalysis) (t : Int)
    (hst : ctx.state = .SUSPECTED)
    (hc : 1 ≤ ctx.consecutive_outage_count) (hs : ctx.notification_sent = false) :
    ContextInv (monitor_task_step ctx a t).1 := by
  by_cases hinc : is_analysis_inconclusive a = true
  · simp [monitor_task_step, hinc, ContextInv, hst, hs]
    omega
  · by_cases ho : a.is_outage = true
    · simp only [ContextInv, monitor_task_step, hinc, ho, OUTAGE_NOTIFY_CONFIRM_COUNT,
        if_false, Bool.false_eq_true]
      split_ifs <;> simp_all [decide_eq_true_eq]
    · simp only [ContextInv, monitor_task_step, hinc, ho, OUTAGE_NOTIFY_CONFIRM_COUNT,
        if_false, Bool.false_eq_true]
      split_ifs <;> simp_all [decide_eq_true_eq, reset_counters]

/-- The invariant is preserved by a tick taken in Outage. -/
theorem inv_step_outage (ctx : StatusContext) (a : OutageAnalysis) (t : Int)
    (hst : ctx.state = .OUTAGE)
    (hc : 1 ≤ ctx.consecutive_outage_count) :
    ContextInv (monitor_task_step ctx a t).1 := by
  by_cases hinc : is_analysis_inconclusive a = true
  · simp [monitor_task_step, hinc, ContextInv, hst]
    omega
  · by_cases ho : a.is_outage = true
    · simp only [ContextInv, monitor_task_step, hinc, ho, OUTAGE_NOTIFY_CONFIRM_COUNT,
        if_false, Bool.false_eq_true]
      split_ifs <;> simp_all [decide_eq_true_eq]
    · simp only [ContextInv, monitor_task_step, hinc, ho, OUTAGE_NOTIFY_CONFIRM_COUNT,
        if_false, Bool.false_eq_true]
      split_ifs <;> simp_all [decide_eq_true_eq, reset_counters]

/-- The invariant is preserved by a tick taken in Monitoring. -/
theorem inv_step_monitoring (ctx : StatusContext) (a : OutageAnalysis) (t : Int)
    (hst : ctx.state = .MONITORING)
    (hc : 1 ≤ ctx.consecutive_outage_count) :
    ContextInv (monitor_task_step ctx a t).1 := by
  by_cases hinc : is_analysis_inconclusive a = true
  · simp [monitor_task_step, hinc, ContextInv, hst]
    omega
  · by_cases ho : a.is_outage = true
    · simp only [ContextInv, monitor_task_step, hinc, ho, OUTAGE_NOTIFY_CONFIRM_COUNT,
        if_false, Bool.false_eq_true]
      split_ifs <;> simp_all [decide_eq_true_eq]
    · simp only [ContextInv, monitor_task_step, hinc, ho, OUTAGE_NOTIFY_CONFIRM_COUNT,
        if_false, Bool.false_eq_true]
      split_ifs <;> simp_all [decide_eq_true_eq, reset_counters]

/-- Every tick preserves the context invariant. -/
theorem step_preserves_inv (ctx : StatusContext) (a : OutageAnalysis) (t : Int)
    (h : ContextInv ctx) : ContextInv (monitor_task_step ctx a t).1 := by
  obtain ⟨h1, h2, h3⟩ := h
  cases hst : ctx.state with
  | NORMAL => exact inv_step_normal ctx a t hst (h1 hst).1 (h1 hst).2
  | SUSPECTED => exact inv_step_suspected ctx a t hst (h2 hst).1 (h2 hst).2
  | OUTAGE => exact inv_step_outage ctx a t hst (h3 (by simp [hst]))
  | MONITORING => exact inv_step_monitoring ctx a t hst (h3 (by simp [hst]))

/-- C7: in every context reachable from the fresh Normal context, both
streak counters are non-negative, and the state is Normal exactly when the
outage streak is zero and nothing has been notified for the current
incident. -/
theorem c7_invariant (ctx : StatusContext) (h : Reachable ctx) :
    (0 ≤ ctx.consecutive_outage_count ∧ 0 ≤ ctx.consecutive_recovery_count) ∧
    (ctx.state = .NORMAL ↔
      (ctx.consecutive_outage_count = 0 ∧ ctx.notification_sent = false)) := by
  have hi : ContextInv ctx := by
    induction h with
    | init => exact ⟨fun _ => ⟨rfl, rfl⟩, fun hs => by simp [initial_context] at hs, fun hs => by
        simp [initial_context] at hs⟩
    | step ctx a t hr ih => exact step_preserves_inv ctx a t ih
  obtain ⟨h1, h2, h3⟩ := hi
  refine ⟨⟨Nat.zero_le _, Nat.zero_le _⟩, ?_, ?_⟩
  · exact h1
  · rintro ⟨hc, hs⟩
    by_contra hne
    have := h3 hne
    omega

/-- Witness for C7 at the initial context. -/
theorem c7_invariant_witness :
    Reachable initial_context ∧
    ((0 ≤ initial_context.consecutive_outage_count ∧
      0 ≤ initial_context.consecutive_recovery_count) ∧
     (initial_context.state = .NORMAL ↔
       (initial_context.consecutive_outage_count = 0 ∧
        initial_context.notification_sent = false))) :=
  ⟨Reachable.init, c7_invariant initial_context Reachable.init⟩

/-- Every tick whose decision sends an alert was allowed by the alert
cooldown and records its time as the new last-alert timestamp. -/
theorem step_alert_fired (ctx : StatusContext) (a : OutageAnalysis) (t : Int) :
    (monitor_task_step ctx a t).2.send_alert = true →
    ALERT_COOLDOWN_SEC ≤ t - ctx.last_alert_timestamp ∧
    (monitor_task_step ctx a t).1.last_alert_timestamp = t := by
  by_cases hinc : is_analysis_inconclusive a = true
  · simp [monitor_task_step, hinc, no_send_decision]
  · by_cases ho : a.is_outage = true
    · simp only [monitor_task_step, hinc, ho, if_false, Bool.false_eq_true]
      split_ifs <;> simp_all [no_send_decision, decide_eq_true_eq]
    · simp only [monitor_task_step, hinc, ho, if_false, Bool.false_eq_true]
      split_ifs <;> simp_all [no_send_decision, decide_eq_true_eq, reset_counters]

/-- A tick either leaves the last-alert timestamp alone or stamps it with
the tick time. -/
theorem step_last_alert_cases (ctx : StatusContext) (a : OutageAnalysis) (t : Int) :
    (monitor_task_step ctx a t).1.last_alert_timestamp = ctx.last_alert_timestamp ∨
    (monitor_task_step ctx a t).1.last_alert_timestamp = t := by
  by_cases hinc : is_analysis_inconclusive a = true
  · simp [monitor_task_step, hinc]
  · by_cases ho : a.is_outage = true
    · simp only [monitor_task_step, hinc, ho, if_false, Bool.false_eq_true]
      split_ifs <;> simp_all
    · simp only [monitor_task_step, hinc, ho, if_false, Bool.false_eq_true]
      split_ifs <;> simp_all [reset_counters]

/-- Once the last-alert timestamp is at least L and every later tick time
is at least L, every alert in the rest of the run fires at least a full
cooldown window after L. -/
theorem alerts_lower_bound (events : List (OutageAnalysis × Int)) :
    ∀ (ctx : StatusContext) (L : Int),
      L ≤ ctx.last_alert_timestamp → (∀ e ∈ events, L ≤ e.2) →
      ∀ p ∈ run_timed ctx events, p.1.send_alert = true →
        ALERT_COOLDOWN_SEC ≤ p.2 - L := by
  induction events with
  | nil =>
    intro ctx L hL he p hp
    simp [run_timed] at hp
  | cons e rest ih =>
    rintro ctx L hL he p hp halert
    obtain ⟨a, t⟩ := e
    simp only [run_timed, List.mem_cons] at hp
    rcases hp with rfl | hp
    · obtain ⟨hcool, hstamp⟩ := step_alert_fired ctx a t halert
      have ht : L ≤ t := he (a, t) (List.mem_cons_self _ _)
      dsimp only
      omega
    · refine ih (monitor_task_step ctx a t).1 L ?_
        (fun q hq => he q (List.mem_cons_of_mem _ hq)) p hp halert
      rcases step_last_alert_cases ctx a t with hEq | hEq
      · rw [hEq]; exact hL
      · rw [hEq]; exact he (a, t) (List.mem_cons_self _ _)

/-- C4: over any input sequence with non-decreasing tick times, any two
decisions that send an alert are at least the alert cooldown window
(1800 s) apart. -/
theorem c4_alert_cooldown (ctx : StatusContext) (events : List (OutageAnalysis × Int))
    (hmono : events.Pairwise (fun p q => p.2 ≤ q.2)) :
    (run_timed ctx events).Pairwise (fun p q =>
      p.1.send_alert = true → q.1.send_alert = true →
        ALERT_COOLDOWN_SEC ≤ q.2 - p.2) := by
  induction events generalizing ctx with
  | nil => simp [run_timed]
  | cons e rest ih =>
    obtain ⟨a, t⟩ := e
    rw [List.pairwise_cons] at hmono
    obtain ⟨hhead, htail⟩ := hmono
    simp only [run_timed]
    rw [List.pairwise_cons]
    constructor
    · rintro ⟨d2, t2⟩ hq h1 h2
      obtain ⟨hcool, hstamp⟩ := step_alert_fired ctx a t h1
      exact alerts_lower_bound rest (monitor_task_step ctx a t).1 t
        (le_of_eq hstamp.symm) (fun q hqq => hhead q hqq) (d2, t2) hq h2
    · exact ih _ htail

/-- Witness for C4: two official outage ticks 2000 s apart. -/
theorem c4_alert_cooldown_witness :
    List.Pairwise (fun p q => p.2 ≤ q.2)
      [(obs_official_major, (2000 : Int)), (obs_official_major, 4000)] ∧
    (run_timed initial_context
      [(obs_official_major, (2000 : Int)), (obs_official_major, 4000)]).Pairwise
      (fun p q => p.1.send_alert = true → q.1.send_alert = true →
        ALERT_COOLDOWN_SEC ≤ q.2 - p.2) :=
  ⟨by decide,
   c4_alert_cooldown initial_context
     [(obs_official_major, 2000), (obs_official_major, 4000)] (by decide)⟩
